import Mathlib

/-!
Shallow embedding of `Comparison.py`, a script that renders bar charts and
confusion-matrix heatmaps from hardcoded arrays comparing centralized and
federated learning results.

Rendering side effects are modelled as values: each plotting call produces a
list of `RenderEvent`s (figures shown via `plt.show`).  The module-level
arrays are gathered in a `ModuleState` record that the functions read; a
function returns the (unchanged) state together with its events, wrapped in
`Option` because `matplotlib`'s `ax.bar` raises a shape-mismatch error when
the label and value sequences have different lengths.
-/

/-- One `ax.bar(labels, values, color=..., label=...)` series. -/
structure BarSeries where
  labels : List String
  values : List ℚ
  color : String
  legendLabel : String
deriving DecidableEq, Repr

/-- One axis (panel) of a figure: its bar series, `set_ylim` bounds,
`set_title`, `set_ylabel` and the legend location. -/
structure Axis where
  series : List BarSeries
  ylim : ℚ × ℚ
  title : String
  ylabel : String
  legendLoc : String
deriving DecidableEq, Repr

/-- A figure produced by `plt.subplots`: its axes and `plt.suptitle`. -/
structure Figure where
  axes : List Axis
  suptitle : String
deriving DecidableEq, Repr

/-- A heatmap produced by `ax.matshow(cm, cmap=...)` with a colorbar,
title and axis labels. -/
structure Heatmap where
  matrix : List (List ℤ)
  cmap : String
  title : String
  xlabel : String
  ylabel : String
deriving DecidableEq, Repr

/-- One `plt.show()` call: either a bar-chart figure or a heatmap. -/
inductive RenderEvent where
  | showFigure (f : Figure)
  | showHeatmap (h : Heatmap)
deriving DecidableEq, Repr

/-- The module-level datasets of `Comparison.py`. -/
structure ModuleState where
  centralized_acc : List ℚ
  centralized_unseen_acc : List ℚ
  federated_acc : List ℚ
  federated_labels : List String
  cm_centralized : List (List ℤ)
  cm_federated : List (List ℤ)
deriving DecidableEq, Repr

/-- `centralized_acc = [65.69, 68.72, 68.36]`. -/
def centralized_acc : List ℚ := [65.69, 68.72, 68.36]

/-- `centralized_unseen_acc = [0.0, 0.0, 0.0]`. -/
def centralized_unseen_acc : List ℚ := [0.0, 0.0, 0.0]

/-- `federated_acc = [95.94, 97.35, 94.48, 94.64]`. -/
def federated_acc : List ℚ := [95.94, 97.35, 94.48, 94.64]

/-- `federated_labels`. -/
def federated_labels : List String :=
  ["All Digits", "[1,3,7]", "[2,5,8]", "[4,6,9]"]

/-- `cm_centralized = np.array([[50, 2, 1], [1, 45, 5], [0, 3, 52]])`. -/
def cm_centralized : List (List ℤ) := [[50, 2, 1], [1, 45, 5], [0, 3, 52]]

/-- `cm_federated = np.array([[58, 1, 0], [1, 57, 2], [0, 1, 59]])`. -/
def cm_federated : List (List ℤ) := [[58, 1, 0], [1, 57, 2], [0, 1, 59]]

/-- The module state right after loading `Comparison.py`. -/
def initState : ModuleState :=
  ⟨centralized_acc, centralized_unseen_acc, federated_acc, federated_labels,
   cm_centralized, cm_federated⟩

/-- `ax.bar(labels, values, color=c, label=l)`: matplotlib raises a
shape-mismatch `ValueError` when `labels` and `values` differ in length,
and otherwise draws one bar series. -/
def bar (labels : List String) (values : List ℚ) (color legendLabel : String) :
    Option BarSeries :=
  if labels.length = values.length then
    some ⟨labels, values, color, legendLabel⟩
  else
    none

/-- `plot_accuracy_comparison()`: reads the module-level arrays, draws two
bar series on the left axis and one on the right axis, fixes both y-ranges
to `[0, 100]`, and shows one two-panel figure.  Fails (raises) exactly when
one of the three `ax.bar` calls fails. -/
def plot_accuracy_comparison (s : ModuleState) :
    Option (List RenderEvent × ModuleState) :=
  match bar ["Model 1", "Model 2", "Model 3"] s.centralized_acc
          "blue" "Entire Dataset",
        bar ["Model 1", "Model 2", "Model 3"] s.centralized_unseen_acc
          "red" "Unseen Digits",
        bar s.federated_labels s.federated_acc "green" "Federated Results" with
  | some b₀, some b₁, some b₂ =>
      some ([RenderEvent.showFigure
        ⟨[⟨[b₀, b₁], (0, 100), "Centralized Learning", "Accuracy (%)",
            "upper left"⟩,
          ⟨[b₂], (0, 100), "Federated Learning", "Accuracy (%)",
            "upper left"⟩],
         "Centralized vs Federated Learning Accuracy Comparison"⟩], s)
  | _, _, _ => none

/-- `plot_confusion_matrix(cm, title)`: unconditionally shows one heatmap of
`cm` with the `Blues` colormap and title `f"..." ++ " Confusion Matrix"`;
it performs no validation of the matrix shape. -/
def plot_confusion_matrix (cm : List (List ℤ)) (title : String) :
    Option (List RenderEvent) :=
  some [RenderEvent.showHeatmap
    ⟨cm, "Blues", title ++ " Confusion Matrix", "Predicted", "True"⟩]

/-- `compare_confusion_matrices()`: plots the centralized then the federated
confusion matrix read from the module state. -/
def compare_confusion_matrices (s : ModuleState) :
    Option (List RenderEvent × ModuleState) :=
  match plot_confusion_matrix s.cm_centralized "Centralized Model",
        plot_confusion_matrix s.cm_federated "Federated Model" with
  | some e₁, some e₂ => some (e₁ ++ e₂, s)
  | _, _ => none

/-- The `__main__` guard: `plot_accuracy_comparison()` followed by
`compare_confusion_matrices()`. -/
def mainScript (s : ModuleState) : Option (List RenderEvent × ModuleState) :=
  match plot_accuracy_comparison s with
  | none => none
  | some (e₁, s₁) =>
      match compare_confusion_matrices s₁ with
      | none => none
      | some (e₂, s₂) => some (e₁ ++ e₂, s₂)

/-- A call to one of the three rendering functions of the module. -/
inductive Call where
  | accuracyComparison : Call
  | confusionMatrix : List (List ℤ) → String → Call
  | compareMatrices : Call

/-- Execute one rendering call against the module state. -/
def runCall : Call → ModuleState → Option (List RenderEvent × ModuleState)
  | Call.accuracyComparison, s => plot_accuracy_comparison s
  | Call.confusionMatrix cm title, s =>
      match plot_confusion_matrix cm title with
      | some es => some (es, s)
      | none => none
  | Call.compareMatrices, s => compare_confusion_matrices s

/-- Execute a sequence of rendering calls, accumulating the shown output;
a failing call aborts the run, as an uncaught exception would. -/
def runCalls : List Call → ModuleState → Option (List RenderEvent × ModuleState)
  | [], s => some ([], s)
  | c :: cs, s =>
      match runCall c s with
      | none => none
      | some (es, s₁) =>
          match runCalls cs s₁ with
          | none => none
          | some (es₂, s₂) => some (es ++ es₂, s₂)

/-- Number of bar-chart figures among the shown output. -/
def countFigures (es : List RenderEvent) : Nat :=
  es.countP fun e =>
    match e with
    | RenderEvent.showFigure _ => true
    | RenderEvent.showHeatmap _ => false

/-- Number of heatmaps among the shown output. -/
def countHeatmaps (es : List RenderEvent) : Nat :=
  es.countP fun e =>
    match e with
    | RenderEvent.showFigure _ => false
    | RenderEvent.showHeatmap _ => true

/-- Total number of bar-chart panels (axes) among the shown output. -/
def barPanels (es : List RenderEvent) : Nat :=
  (es.map fun e =>
    match e with
    | RenderEvent.showFigure f => f.axes.length
    | RenderEvent.showHeatmap _ => 0).sum

/-- A matrix is square when every row is as long as the list of rows. -/
def isSquare (cm : List (List ℤ)) : Bool :=
  cm.all fun row => row.length = cm.length

/-- The row sums of a matrix. -/
def rowSums (cm : List (List ℤ)) : List ℤ :=
  cm.map fun row => row.sum

/-- The body of `plot_accuracy_comparison` only reads the module arrays, so
the state it returns is the state it was given. -/
theorem plot_accuracy_comparison_state_eq (s : ModuleState)
    (r : List RenderEvent × ModuleState)
    (h : plot_accuracy_comparison s = some r) : r.2 = s := by
  unfold plot_accuracy_comparison at h
  split at h
  · injection h with h₁
    subst h₁
    rfl
  · exact Option.noConfusion h

/-- The body of `compare_confusion_matrices` only reads the module arrays,
so the state it returns is the state it was given. -/
theorem compare_confusion_matrices_state_eq (s : ModuleState)
    (r : List RenderEvent × ModuleState)
    (h : compare_confusion_matrices s = some r) : r.2 = s := by
  unfold compare_confusion_matrices at h
  split at h
  · injection h with h₁
    subst h₁
    rfl
  · exact Option.noConfusion h

/-- No single rendering call writes the module state. -/
theorem runCall_state_eq (c : Call) (s : ModuleState)
    (r : List RenderEvent × ModuleState)
    (h : runCall c s = some r) : r.2 = s := by
  cases c with
  | accuracyComparison => exact plot_accuracy_comparison_state_eq s r h
  | confusionMatrix cm title =>
      simp only [runCall, plot_confusion_matrix] at h
      injection h with h₁
      subst h₁
      rfl
  | compareMatrices => exact compare_confusion_matrices_state_eq s r h

/-- No sequence of rendering calls writes the module state. -/
theorem runCalls_state_eq :
    ∀ (cs : List Call) (s : ModuleState) (r : List RenderEvent × ModuleState),
      runCalls cs s = some r → r.2 = s := by
  intro cs
  induction cs with
  | nil =>
      intro s r h
      injection h with h₁
      subst h₁
      rfl
  | cons c cs ih =>
      intro s r h
      unfold runCalls at h
      split at h
      · exact Option.noConfusion h
      · rename_i es s₁ heq
        split at h
        · exact Option.noConfusion h
        · rename_i es₂ s₂ heq₂
          injection h with h₁
          subst h₁
          have h₂ := runCall_state_eq c s (es, s₁) heq
          have h₃ := ih s₁ (es₂, s₂) heq₂
          simp only at h₂ h₃
          show s₂ = s
          rw [h₃, h₂]

/-- Sequencing of two rendering computations: run the first, feed its state
to the second, concatenate the shown output. -/
def seqOut (r₁ : Option (List RenderEvent × ModuleState))
    (k : ModuleState → Option (List RenderEvent × ModuleState)) :
    Option (List RenderEvent × ModuleState) :=
  match r₁ with
  | none => none
  | some (es, s₁) =>
      match k s₁ with
      | none => none
      | some (es₂, s₂) => some (es ++ es₂, s₂)

/-- Unfolding `runCalls` on a nonempty call list. -/
theorem runCalls_cons (c : Call) (cs : List Call) (s : ModuleState) :
    runCalls (c :: cs) s = seqOut (runCall c s) (runCalls cs) := by
  cases hc : runCall c s with
  | none => simp [runCalls, seqOut, hc]
  | some p =>
      obtain ⟨es, s₁⟩ := p
      simp [runCalls, seqOut, hc]

/-- Sequencing is associative. -/
theorem seqOut_assoc (r : Option (List RenderEvent × ModuleState))
    (k₁ k₂ : ModuleState → Option (List RenderEvent × ModuleState)) :
    seqOut (seqOut r k₁) k₂ = seqOut r fun t => seqOut (k₁ t) k₂ := by
  cases r with
  | none => rfl
  | some p =>
      obtain ⟨es, s₁⟩ := p
      simp only [seqOut]
      cases h₁ : k₁ s₁ with
      | none => rfl
      | some q =>
          obtain ⟨es₂, s₂⟩ := q
          simp only [seqOut]
          cases h₂ : k₂ s₂ with
          | none => rfl
          | some u =>
              obtain ⟨es₃, s₃⟩ := u
              simp [List.append_assoc]

/-- Running an appended call sequence is running the two halves in order. -/
theorem runCalls_append (as bs : List Call) (s : ModuleState) :
    runCalls (as ++ bs) s = seqOut (runCalls as s) (runCalls bs) := by
  induction as generalizing s with
  | nil =>
      simp only [List.nil_append, runCalls]
      cases h : runCalls bs s with
      | none => simp [seqOut, h]
      | some r =>
          obtain ⟨es, s₂⟩ := r
          simp [seqOut, h]
  | cons c as ih =>
      rw [List.cons_append, runCalls_cons, runCalls_cons, seqOut_assoc]
      congr 1
      funext t
      exact ih t

/-- Claim C1: running the script directly executes `plot_accuracy_comparison`
first and then `compare_confusion_matrices`, in that fixed order: the
`__main__` output is the first call's events followed by the second call's
events, and nothing else is rendered (one figure then two heatmaps, three
shown windows in total). -/
theorem mainScript_order :
    ∃ e₁ e₂,
      plot_accuracy_comparison initState = some (e₁, initState) ∧
      compare_confusion_matrices initState = some (e₂, initState) ∧
      mainScript initState = some (e₁ ++ e₂, initState) ∧
      countFigures e₁ = 1 ∧ countHeatmaps e₁ = 0 ∧
      countFigures e₂ = 0 ∧ countHeatmaps e₂ = 2 ∧
      (e₁ ++ e₂).length = 3 :=
  ⟨_, _, rfl, rfl, rfl, rfl, rfl, rfl, rfl, rfl⟩

/-- Claim C2: on the literal module-level inputs, `plot_accuracy_comparison`
followed by `compare_confusion_matrices` does not raise, and shows exactly
one figure holding two bar-chart panels and exactly two heatmaps. -/
theorem mainScript_two_panels_two_heatmaps :
    ∃ r, mainScript initState = some r ∧ r.2 = initState ∧
      countFigures r.1 = 1 ∧ barPanels r.1 = 2 ∧ countHeatmaps r.1 = 2 :=
  ⟨_, rfl, rfl, rfl, rfl, rfl⟩

/-- Claim C3: whenever `plot_accuracy_comparison` succeeds, it returns
nothing but the unchanged state and shows exactly one figure made of a
side-by-side pair of bar-chart panels, both with y-range fixed to
`[0, 100]`. -/
theorem plot_accuracy_comparison_figure_shape (s : ModuleState)
    (h : (plot_accuracy_comparison s).isSome = true) :
    ∃ fig, plot_accuracy_comparison s = some ([RenderEvent.showFigure fig], s) ∧
      fig.axes.length = 2 ∧ ∀ a ∈ fig.axes, a.ylim = (0, 100) := by
  unfold plot_accuracy_comparison at h ⊢
  cases hb₀ : bar ["Model 1", "Model 2", "Model 3"] s.centralized_acc
      "blue" "Entire Dataset" with
  | none =>
      rw [hb₀] at h
      exact Bool.noConfusion h
  | some b₀ =>
      cases hb₁ : bar ["Model 1", "Model 2", "Model 3"] s.centralized_unseen_acc
          "red" "Unseen Digits" with
      | none =>
          rw [hb₀, hb₁] at h
          exact Bool.noConfusion h
      | some b₁ =>
          cases hb₂ : bar s.federated_labels s.federated_acc
              "green" "Federated Results" with
          | none =>
              rw [hb₀, hb₁, hb₂] at h
              exact Bool.noConfusion h
          | some b₂ =>
              refine ⟨_, rfl, rfl, ?_⟩
              intro a ha
              rcases List.mem_cons.mp ha with h₁ | h₁
              · subst h₁; rfl
              · rcases List.mem_cons.mp h₁ with h₂ | h₂
                · subst h₂; rfl
                · exact absurd h₂ (List.not_mem_nil a)

/-- Claim C3 witness: the figure-shape property holds at the module's
initial state. -/
theorem plot_accuracy_comparison_figure_shape_witness :
    ∃ fig, plot_accuracy_comparison initState =
        some ([RenderEvent.showFigure fig], initState) ∧
      fig.axes.length = 2 ∧ ∀ a ∈ fig.axes, a.ylim = (0, 100) :=
  plot_accuracy_comparison_figure_shape initState (by decide)

/-- Claim C4: every bar chart's label array matches its value array in
length: the three centralized labels match both `centralized_acc` and
`centralized_unseen_acc`, and the four `federated_labels` match
`federated_acc`. -/
theorem label_value_lengths_match :
    (["Model 1", "Model 2", "Model 3"] : List String).length =
        centralized_acc.length ∧
    (["Model 1", "Model 2", "Model 3"] : List String).length =
        centralized_unseen_acc.length ∧
    federated_labels.length = federated_acc.length ∧
    federated_labels.length = 4 := by decide

/-- Claim C5: both confusion matrices are square 3×3 integer grids with
non-negative entries, hence non-negative row sums. -/
theorem confusion_matrices_square_nonneg :
    cm_centralized.length = 3 ∧ isSquare cm_centralized = true ∧
    cm_federated.length = 3 ∧ isSquare cm_federated = true ∧
    (∀ row ∈ cm_centralized, ∀ x ∈ row, 0 ≤ x) ∧
    (∀ row ∈ cm_federated, ∀ x ∈ row, 0 ≤ x) ∧
    (∀ t ∈ rowSums cm_centralized, 0 ≤ t) ∧
    (∀ t ∈ rowSums cm_federated, 0 ≤ t) := by decide

/-- Claim C6: rendering is idempotent: running any sequence of calls to the
three rendering functions twice in a row shows the very same output both
times, because no hidden state accumulates between the two rounds. -/
theorem render_sequence_twice_identical (cs : List Call) (s : ModuleState)
    (r : List RenderEvent × ModuleState) (h : runCalls cs s = some r) :
    runCalls (cs ++ cs) s = some (r.1 ++ r.1, r.2) := by
  have hs := runCalls_state_eq cs s r h
  obtain ⟨es, s₁⟩ := r
  simp only at hs
  subst hs
  rw [runCalls_append, h]
  simp only [seqOut]
  rw [h]

/-- Claim C6 witness: plotting the matrix `[[1]]` twice shows the same
heatmap twice and leaves the module state unchanged. -/
theorem render_sequence_twice_identical_witness :
    runCalls
        ([Call.confusionMatrix [[1]] "T"] ++ [Call.confusionMatrix [[1]] "T"])
        initState =
      some (([RenderEvent.showHeatmap
            ⟨[[1]], "Blues", "T Confusion Matrix", "Predicted", "True"⟩] :
          List RenderEvent) ++
        [RenderEvent.showHeatmap
          ⟨[[1]], "Blues", "T Confusion Matrix", "Predicted", "True"⟩],
        initState) :=
  render_sequence_twice_identical [Call.confusionMatrix [[1]] "T"] initState
    ([RenderEvent.showHeatmap
      ⟨[[1]], "Blues", "T Confusion Matrix", "Predicted", "True"⟩],
     initState) rfl

/-- Claim C7: the module datasets are never mutated: after any sequence of
calls to the rendering functions, every dataset still equals its initial
literal value. -/
theorem datasets_never_mutated (cs : List Call)
    (r : List RenderEvent × ModuleState)
    (h : runCalls cs initState = some r) :
    r.2.centralized_acc = centralized_acc ∧
    r.2.centralized_unseen_acc = centralized_unseen_acc ∧
    r.2.federated_acc = federated_acc ∧
    r.2.federated_labels = federated_labels ∧
    r.2.cm_centralized = cm_centralized ∧
    r.2.cm_federated = cm_federated := by
  have hs := runCalls_state_eq cs initState r h
  rw [hs]
  exact ⟨rfl, rfl, rfl, rfl, rfl, rfl⟩

/-- Claim C7 witness: the no-mutation property holds after plotting the
matrix `[[0]]`. -/
theorem datasets_never_mutated_witness :
    initState.centralized_acc = centralized_acc ∧
    initState.centralized_unseen_acc = centralized_unseen_acc ∧
    initState.federated_acc = federated_acc ∧
    initState.federated_labels = federated_labels ∧
    initState.cm_centralized = cm_centralized ∧
    initState.cm_federated = cm_federated :=
  datasets_never_mutated [Call.confusionMatrix [[0]] "X"]
    ([RenderEvent.showHeatmap
      ⟨[[0]], "Blues", "X Confusion Matrix", "Predicted", "True"⟩],
     initState) rfl

/-- Claim C8: every element of `centralized_unseen_acc` equals `0.0`, and
no sequence of rendering calls ever computes or assigns a different value,
so it stays permanently zero. -/
theorem unseen_accuracy_permanently_zero (cs : List Call)
    (r : List RenderEvent × ModuleState)
    (h : runCalls cs initState = some r) :
    (∀ x ∈ centralized_unseen_acc, x = 0) ∧
    (∀ x ∈ r.2.centralized_unseen_acc, x = 0) := by
  have hs := runCalls_state_eq cs initState r h
  rw [hs]
  norm_num [List.forall_mem_cons, centralized_unseen_acc, initState]

/-- Claim C8 witness: the permanently-zero property holds after plotting
the matrix `[[2]]`. -/
theorem unseen_accuracy_permanently_zero_witness :
    (∀ x ∈ centralized_unseen_acc, x = 0) ∧
    (∀ x ∈ initState.centralized_unseen_acc, x = 0) :=
  unseen_accuracy_permanently_zero [Call.confusionMatrix [[2]] "Y"]
    ([RenderEvent.showHeatmap
      ⟨[[2]], "Blues", "Y Confusion Matrix", "Predicted", "True"⟩],
     initState) rfl

/-- Claim C9: `plot_confusion_matrix` performs no validation of the matrix
shape: for every grid, square or not, it raises no validation error and
unconditionally shows one heatmap of that grid under the given title. -/
theorem plot_confusion_matrix_no_validation (cm : List (List ℤ))
    (title : String) :
    ∃ hm : Heatmap,
      plot_confusion_matrix cm title = some [RenderEvent.showHeatmap hm] ∧
      hm.matrix = cm ∧ hm.title = title ++ " Confusion Matrix" :=
  ⟨_, rfl, rfl, rfl⟩

/-- Claim C10: every accuracy in the three module-level arrays lies in
`[0, 100]`, so every bar drawn by `plot_accuracy_comparison` fits inside
the fixed y-range of its panel. -/
theorem accuracies_within_axis_range :
    (∀ x ∈ centralized_acc, 0 ≤ x ∧ x ≤ 100) ∧
    (∀ x ∈ centralized_unseen_acc, 0 ≤ x ∧ x ≤ 100) ∧
    (∀ x ∈ federated_acc, 0 ≤ x ∧ x ≤ 100) ∧
    (∃ fig, plot_accuracy_comparison initState =
        some ([RenderEvent.showFigure fig], initState) ∧
      ∀ a ∈ fig.axes, ∀ b ∈ a.series, ∀ v ∈ b.values,
        a.ylim.1 ≤ v ∧ v ≤ a.ylim.2) := by
  refine ⟨?_, ?_, ?_, ⟨_, rfl, ?_⟩⟩ <;>
    norm_num [List.forall_mem_cons, initState, centralized_acc,
      centralized_unseen_acc, federated_acc]
